import Mathlib

/-!
Shallow embedding of the Duo Mapping API service (`src/main.py`,
`src/database.py`, `src/schemas.py`).

Modelling conventions:
* Database rows (`database.py` models) are Lean structures whose fields follow
  the SQLAlchemy columns exactly; nullable columns become `Option`.
* The database session is a `DB` value holding the four row lists; queries are
  list scans, `commit` is explicit state passing.
* Python `float` percentages are modelled exactly as `Rat`: the calculator only
  performs one division and one multiplication, and the claims under study are
  about the algebraic form, not IEEE rounding.
* Fallible handlers return `Except`/a result inductive carrying the HTTP
  status; raising `HTTPException` before `db.commit()` leaves the store
  unchanged (session teardown rolls back), which the embedding reflects by
  returning an error result that carries no new state.
* Python attribute access on an ORM row is modelled by `ERPColumn.getAttr`,
  which errors (AttributeError) on any attribute the `database.py` model does
  not define.
-/

/-- `database.py` `Category`: id, Name, percent_mapped (Float), tab. -/
structure Category where
  id : Nat
  Name : String
  percent_mapped : Rat
  tab : Option String
deriving DecidableEq, Repr

/-- `database.py` `Lines`: one mapping line. Nullable columns are `Option`. -/
structure Lines where
  id : Nat
  categoryid : Nat
  default : Option String
  customer_settings : Option String
  no_of_chars : Option String
  field_name : Option String
  reason : Option String
  name : String
  comment : Option String
  sub_category_id : Option Nat
  table_id : Option Nat
  column_id : Option Nat
deriving DecidableEq, Repr

/-- `database.py` `ERPTable`: id, name (nullable), description (nullable). -/
structure ERPTable where
  id : Nat
  name : Option String
  description : Option String
deriving DecidableEq, Repr

/-- `database.py` `ERPColumn`: id, name, comment, type, table_id.
These five columns are the only attributes the model defines. -/
structure ERPColumn where
  id : Nat
  name : String
  comment : Option String
  type : Option String
  table_id : Option Nat
deriving DecidableEq, Repr

/-- The relational store: the four tables the HTTP handlers touch
(`sub-category` is omitted; no claim under study involves it). -/
structure DB where
  categories : List Category
  lines : List Lines
  tables : List ERPTable
  columns : List ERPColumn
deriving DecidableEq, Repr

/-! ### Percent-mapped calculator (`update_category_percent_mapped`) -/

/-- SQL filter `field_name IS NOT NULL AND field_name != ''` on one row. -/
def fieldNamePresent (l : Lines) : Bool :=
  match l.field_name with
  | none => false
  | some s => s != ""

/-- `total_lines` of `update_category_percent_mapped` (main.py:31-35). -/
def totalLinesCount (ls : List Lines) (category_id : Nat) : Nat :=
  (ls.filter (fun l => l.categoryid == category_id && fieldNamePresent l)).length

/-- `mapped_lines` of `update_category_percent_mapped` (main.py:42-48). -/
def mappedLinesCount (ls : List Lines) (category_id : Nat) : Nat :=
  (ls.filter (fun l =>
    l.categoryid == category_id && fieldNamePresent l &&
    l.table_id.isSome && l.column_id.isSome)).length

/-- The percentage computed by `update_category_percent_mapped`
(main.py:37-51), extracted as a pure function of the line table. -/
def percentFor (ls : List Lines) (category_id : Nat) : Rat :=
  if totalLinesCount ls category_id = 0 then 0
  else ((mappedLinesCount ls category_id : Rat) / (totalLinesCount ls category_id : Rat)) * 100

/-- `update_category_percent_mapped` (main.py:28-57): recompute the percentage
and bulk-update every `Category` row whose id matches, then commit. -/
def update_category_percent_mapped (db : DB) (category_id : Nat) : DB :=
  { db with
    categories := db.categories.map (fun c =>
      if c.id == category_id then
        { c with percent_mapped := percentFor db.lines category_id }
      else c) }

/-- `recalculate_all_percent_mapped` (main.py:444-457): snapshot the category
list, then run the calculator for each category id in turn. -/
def recalculate_all_percent_mapped (db : DB) : DB :=
  db.categories.foldl (fun d c => update_category_percent_mapped d c.id) db

/-! ### Spec-side restatement of the §4.1 counts (claim C1 wording) -/

/-- Claim wording: lines of the category with non-null, non-empty field_name. -/
def specTotal (ls : List Lines) (category_id : Nat) : Nat :=
  ls.countP (fun l =>
    decide (l.categoryid = category_id ∧ l.field_name ≠ none ∧ l.field_name ≠ some ""))

/-- Claim wording: those of them that also have both table_id and column_id
non-null. -/
def specMapped (ls : List Lines) (category_id : Nat) : Nat :=
  ls.countP (fun l =>
    decide (l.categoryid = category_id ∧ l.field_name ≠ none ∧ l.field_name ≠ some "" ∧
      l.table_id ≠ none ∧ l.column_id ≠ none))

/-- Claim wording of the resulting percentage: 0 when no countable line,
otherwise `(mapped / total) * 100`. -/
def specPercent (ls : List Lines) (category_id : Nat) : Rat :=
  if specTotal ls category_id = 0 then 0
  else ((specMapped ls category_id : Rat) / (specTotal ls category_id : Rat)) * 100

/-! ### PATCH /api/lines/{line_id} (`update_line`, main.py:268-358) -/

/-- Request body `LineCreate` (schemas.py:73-76). -/
structure LineCreate where
  table_id : Option Nat
  column_id : Option Nat
  comment : Option String
deriving DecidableEq, Repr

/-- Response body `LineResponse` (schemas.py:78-89). -/
structure LineResponse where
  id : Nat
  categoryid : Nat
  table_id : Option Nat
  column_id : Option Nat
  table_name : Option String
  column_name : Option String
  comment : Option String
  action : String
deriving DecidableEq, Repr

/-- Outcome of the PATCH handler: each raised `HTTPException` is one error
constructor; `ok` carries the committed store and the response body. -/
inductive UpdateResult where
  | lineNotFound
  | tableNotFound
  | columnNotFound
  | columnWrongTable
  | internalError
  | ok (db : DB) (resp : LineResponse)
deriving DecidableEq, Repr

/-- HTTP status of an `UpdateResult`. -/
def UpdateResult.status : UpdateResult → Nat
  | .lineNotFound => 404
  | .tableNotFound => 404
  | .columnNotFound => 404
  | .columnWrongTable => 400
  | .internalError => 500
  | .ok _ _ => 200

/-- ORM single-object update: replace the first row whose id matches
(`query(...).filter(Lines.id == line_id).first()` then mutate + commit). -/
def setLine : List Lines → Nat → Lines → List Lines
  | [], _, _ => []
  | l :: rest, line_id, nl =>
    if l.id == line_id then nl :: rest else l :: setLine rest line_id nl

/-- `line.erp_table` relationship resolution. -/
def lineTable (db : DB) (l : Lines) : Option ERPTable :=
  l.table_id.bind (fun t => db.tables.find? (fun x => x.id == t))

/-- `line.erp_column` relationship resolution. -/
def lineColumn (db : DB) (l : Lines) : Option ERPColumn :=
  l.column_id.bind (fun c => db.columns.find? (fun x => x.id == c))

/-- Build the PATCH response dict (main.py:296-305 and 349-358) from the
re-queried line. -/
def lineResponseOf (db : DB) (l : Lines) (action : String) : LineResponse :=
  { id := l.id
    categoryid := l.categoryid
    table_id := l.table_id
    column_id := l.column_id
    table_name := (lineTable db l).bind (fun t => t.name)
    column_name := (lineColumn db l).map (fun c => c.name)
    comment := l.comment
    action := action }

/-- Shared tail of both successful PATCH branches: commit the mutated row,
recompute the owning category's percentage, re-query the row, and build the
response. The `none` case of the re-query models the `AttributeError` a `None`
result would raise (unreachable in practice). -/
def finishUpdate (db : DB) (line_id : Nat) (line2 line0 : Lines) (action : String) : UpdateResult :=
  let db1 : DB := { db with lines := setLine db.lines line_id line2 }
  let db2 := update_category_percent_mapped db1 line0.categoryid
  match db2.lines.find? (fun x => x.id == line0.id) with
  | none => .internalError
  | some u => .ok db2 (lineResponseOf db2 u action)

/-- The in-memory comment mutation of main.py:277-278. -/
def applyComment (line_data : LineCreate) (l : Lines) : Lines :=
  match line_data.comment with
  | some c => { l with comment := some c }
  | none => l

/-- `update_line` (main.py:268-358). Branches, in source order:
line lookup (404); comment applied in memory; `table_id` absent-or-0 clears
both ids and returns early; otherwise table existence check (404), then the
column cases (clear on 0, validate on nonzero, clear on absent). Raising
before `db.commit()` discards the in-memory mutations. -/
def update_line (db : DB) (line_id : Nat) (line_data : LineCreate) : UpdateResult :=
  match db.lines.find? (fun l => l.id == line_id) with
  | none => .lineNotFound
  | some line0 =>
    let line1 : Lines := applyComment line_data line0
    if line_data.table_id.isNone || line_data.table_id == some 0 then
      finishUpdate db line_id { line1 with table_id := none, column_id := none } line0 "cleared_table_id"
    else
      match line_data.table_id with
      | none => .internalError
      | some t =>
        match db.tables.find? (fun x => x.id == t) with
        | none => .tableNotFound
        | some _ =>
          if line_data.column_id == some 0 then
            finishUpdate db line_id { line1 with table_id := some t, column_id := none } line0 "cleared_column_id"
          else
            match line_data.column_id with
            | some c =>
              match db.columns.find? (fun x => x.id == c) with
              | none => .columnNotFound
              | some col =>
                if col.table_id == some t then
                  finishUpdate db line_id { line1 with table_id := some t, column_id := some c } line0 "updated"
                else .columnWrongTable
            | none =>
              finishUpdate db line_id { line1 with table_id := some t, column_id := none } line0 "updated"

/-! ### String helpers modelling Python `str` operations -/

/-- Python `str.lower()` (code-point-wise lowering). -/
def pyLower (s : String) : String :=
  String.mk (s.toList.map Char.toLower)

/-- Python `str.strip()`: drop whitespace from both ends (structural, so the
kernel can evaluate it on concrete strings). -/
def pyStrip (s : String) : String :=
  String.mk (((s.toList.dropWhile Char.isWhitespace).reverse.dropWhile
    Char.isWhitespace).reverse)

/-- `needle` is an initial segment of `hay` (over character lists). -/
def leadsList : List Char → List Char → Bool
  | [], _ => true
  | _ :: _, [] => false
  | a :: as, b :: bs => a == b && leadsList as bs

/-- Contiguous-substring test over character lists. -/
def hasSegList (needle : List Char) : List Char → Bool
  | [] => leadsList needle []
  | b :: hs => leadsList needle (b :: hs) || hasSegList needle hs

/-- Python `needle in hay` on strings (contiguous substring). -/
def hasSeg (needle hay : String) : Bool :=
  hasSegList needle.toList hay.toList

/-- Code-point lexicographic order on character lists, modelling Python
string comparison. -/
def charListLe : List Char → List Char → Bool
  | [], _ => true
  | _ :: _, [] => false
  | a :: as, b :: bs =>
    if a.toNat < b.toNat then true
    else if b.toNat < a.toNat then false
    else charListLe as bs

/-- Python `<=` on strings. -/
def strLe (s t : String) : Bool :=
  charListLe s.toList t.toList

/-! ### GET /api/search-columns (`search_columns`, main.py:360-398) -/

/-- Response row `ColumnSearchResult` (schemas.py:92-100); `table_name` is a
non-nullable `str` there, so a row can only be built from a table whose name
is present. -/
structure ColumnSearchResult where
  column_name : String
  table_name : String
  column_id : Nat
  table_id : Nat
  match_type : String
deriving DecidableEq, Repr

/-- The inner join `ERPColumn JOIN ERPTable ON ERPColumn.table_id = ERPTable.id`
(main.py:370), scanned in store order. -/
def scanPairs (db : DB) : List (ERPColumn × ERPTable) :=
  db.columns.flatMap (fun c =>
    (db.tables.filter (fun t => c.table_id == some t.id)).map (fun t => (c, t)))

/-- Construction of one `ColumnSearchResult` (main.py:380-386 and 389-395):
pydantic validates the non-nullable `table_name: str` field, so a `NULL` table
name raises a `ValidationError` (the request answers 500). -/
def mkSearchResult (c : ERPColumn) (t : ERPTable) (mt : String) : Except String ColumnSearchResult :=
  match t.name with
  | some n =>
    .ok { column_name := c.name, table_name := n, column_id := c.id, table_id := t.id,
          match_type := mt }
  | none => .error "ValidationError: table_name must be a string"

/-- Claim-side description of one search-result row; the `getD ""` default is
never exercised on the stores the search theorem quantifies over (all table
names present). -/
def specSearchRow (p : ERPColumn × ERPTable) (mt : String) : ColumnSearchResult :=
  { column_name := p.1.name, table_name := p.2.name.getD "", column_id := p.1.id,
    table_id := p.2.id, match_type := mt }

/-- The scan loop of `search_columns` (main.py:375-395): classify each joined
pair into the exact list or the partial list, preserving scan order; building
a row for a match can raise (see `mkSearchResult`), aborting the request. -/
def splitMatches (search_term : String) :
    List (ERPColumn × ERPTable) → Except String (List ColumnSearchResult × List ColumnSearchResult)
  | [] => .ok ([], [])
  | (c, t) :: rest =>
    if pyLower c.name == search_term then do
      let r ← mkSearchResult c t "exact"
      let (es, ps) ← splitMatches search_term rest
      .ok (r :: es, ps)
    else if hasSeg search_term (pyLower c.name) then do
      let r ← mkSearchResult c t "partial"
      let (es, ps) ← splitMatches search_term rest
      .ok (es, r :: ps)
    else splitMatches search_term rest

/-- `search_columns` (main.py:360-398): 400 on a blank term, otherwise exact
matches followed by partial matches; `str.strip` is modelled by `pyStrip`. -/
def search_columns (db : DB) (columnName : String) : Except String (List ColumnSearchResult) :=
  if pyStrip columnName == "" then
    .error "columnName parameter is required and cannot be empty"
  else do
    let search_term := pyLower (pyStrip columnName)
    let (es, ps) ← splitMatches search_term (scanPairs db)
    .ok (es ++ ps)

/-! ### POST /api/find-table-matches (`find_table_matches`, main.py:400-442) -/

/-- Response row `TableMatchResult` (schemas.py:107-114); `table_name` keeps
the row's nullable name. -/
structure TableMatchResult where
  table_id : Nat
  table_name : Option String
  match_count : Nat
  matched_columns : List String
deriving DecidableEq, Repr

/-- The normalized candidate list (main.py:407):
`[col.strip().lower() for col in request.column_names if col.strip()]`. -/
def normalizedCandidates (column_names : List String) : List String :=
  (column_names.filter (fun s => pyStrip s != "")).map (fun s => pyLower (pyStrip s))

/-- `table.columns` relationship: the columns of one ERP table, in store
order. -/
def tableColumns (db : DB) (t : ERPTable) : List ERPColumn :=
  db.columns.filter (fun c => c.table_id == some t.id)

/-- Order on nullable names used by the model sort; on present names it is
Python's string order (a `None` name would make Python's key comparison raise,
see the fidelity hypotheses of the claims that sort by name). -/
def optNameLe : Option String → Option String → Bool
  | none, _ => true
  | some _, none => false
  | some s, some t => strLe s t

/-- The sort key order of main.py:440: `(-match_count, table_name)`,
lexicographically. -/
def tmLe (a b : TableMatchResult) : Bool :=
  b.match_count < a.match_count ||
    (a.match_count == b.match_count && optNameLe a.table_name b.table_name)

/-- Stable insertion on a total preorder `le`: the new element goes after
every existing element that may precede it. -/
def insLe {α : Type} (le : α → α → Bool) (a : α) : List α → List α
  | [] => [a]
  | b :: l => if le b a then b :: insLe le a l else a :: b :: l

/-- Stable insertion sort; on a total preorder it computes the unique stable
sort, which is what Python's `list.sort` produces. -/
def sortLe {α : Type} (le : α → α → Bool) : List α → List α
  | [] => []
  | a :: l => insLe le a (sortLe le l)

/-- One table's aggregation in `find_table_matches` (main.py:417-437):
count exact lowercase matches and keep the table only when it has one. -/
def tableMatchOf (db : DB) (sc : List String) (t : ERPTable) : Option TableMatchResult :=
  let matched := (tableColumns db t).filter (fun c => sc.contains (pyLower c.name))
  if matched.length > 0 then
    some { table_id := t.id, table_name := t.name, match_count := matched.length,
           matched_columns := matched.map (fun c => c.name) }
  else none

/-- `find_table_matches` (main.py:400-442). -/
def find_table_matches (db : DB) (column_names : List String) : Except String (List TableMatchResult) :=
  if column_names.isEmpty then
    .error "column_names list cannot be empty"
  else
    let sc := normalizedCandidates column_names
    if sc.isEmpty then
      .error "No valid column names provided"
    else
      .ok (sortLe tmLe (db.tables.filterMap (tableMatchOf db sc)))

/-! ### GET /api/download-schema (`generate_mapped_schema`, main.py:60-132)

`main.py` reads `column.not_null`, `column.primary_key`, `column.unique` and
`column.default` (main.py:100-103), but the `ERPColumn` model of `database.py`
defines only `id`, `name`, `comment`, `type`, `table_id` (database.py:75-86).
In Python, reading an attribute a class does not define raises
`AttributeError`; `download_schema` catches it and answers 500. The embedding
models attribute access explicitly so this failure is visible. -/

/-- A Python attribute value as stored on the ORM rows. -/
inductive PyVal where
  | vNone
  | vBool (b : Bool)
  | vInt (n : Nat)
  | vStr (s : String)
deriving DecidableEq, Repr

/-- Lift a nullable string attribute to a Python value. -/
def pyOfOptStr : Option String → PyVal
  | none => .vNone
  | some s => .vStr s

/-- Lift a nullable integer attribute to a Python value. -/
def pyOfOptNat : Option Nat → PyVal
  | none => .vNone
  | some n => .vInt n

/-- Python `getattr` on an `ERPColumn` row: only the five attributes declared
in `database.py` exist; anything else raises `AttributeError`. -/
def ERPColumn.getAttr (c : ERPColumn) : String → Except String PyVal
  | "id" => .ok (.vInt c.id)
  | "name" => .ok (.vStr c.name)
  | "comment" => .ok (pyOfOptStr c.comment)
  | "type" => .ok (pyOfOptStr c.type)
  | "table_id" => .ok (pyOfOptNat c.table_id)
  | a => .error ("AttributeError: 'ERPColumn' object has no attribute '" ++ a ++ "'")

/-- One `column_entry` dict of the export (main.py:96-110). -/
structure ColumnEntry where
  name : String
  type : String
  not_null : PyVal
  primary_key : PyVal
  unique : PyVal
  default : PyVal
  comment : Option String
  description : Option String
deriving DecidableEq, Repr

/-- Python `x if x is not None else False` applied to a constraint value. -/
def noneToFalse : PyVal → PyVal
  | .vNone => .vBool false
  | v => v

/-- Build one `column_entry` (main.py:96-110): the four constraint reads go
through attribute access and therefore fail on the `database.py` model; the
`description` key is added only when `line.reason` is non-null and non-blank. -/
def buildColumnEntry (line : Lines) (column : ERPColumn) : Except String ColumnEntry := do
  let nn ← column.getAttr "not_null"
  let pk ← column.getAttr "primary_key"
  let uq ← column.getAttr "unique"
  let df ← column.getAttr "default"
  let base : ColumnEntry :=
    { name := column.name
      type := match column.type with
              | some ty => if ty == "" then "unknown" else ty
              | none => "unknown"
      not_null := noneToFalse nn
      primary_key := noneToFalse pk
      unique := noneToFalse uq
      default := df
      comment := column.comment
      description := none }
  match line.reason with
  | some r => if pyStrip r != "" then pure { base with description := some r } else pure base
  | none => pure base

/-- One value of `tables_dict` (main.py:85-90): keyed by the table name, the
column dict kept in insertion (first-seen) order. -/
structure TableDraft where
  name : Option String
  description : String
  columns : List ColumnEntry
deriving DecidableEq, Repr

/-- `table.description or f"Table {table_name}"` (main.py:88); Python `or`
falls through on `None` and on the empty string, and interpolating a `None`
name prints `None`. -/
def tableDescr (t : ERPTable) : String :=
  let fallback := "Table " ++ (match t.name with | some n => n | none => "None")
  match t.description with
  | some d => if d == "" then fallback else d
  | none => fallback

/-- Insert one mapped line into `tables_dict` (main.py:85-112): create the
table entry on first sight, then add the column entry unless a column of the
same name is already present. -/
def addToTables : List TableDraft → ERPTable → ERPColumn → Lines → Except String (List TableDraft)
  | [], t, c, l => do
    let e ← buildColumnEntry l c
    pure [{ name := t.name, description := tableDescr t, columns := [e] }]
  | d :: ds, t, c, l =>
    if d.name == t.name then
      if d.columns.any (fun e => e.name == c.name) then pure (d :: ds)
      else do
        let e ← buildColumnEntry l c
        pure ({ d with columns := d.columns ++ [e] } :: ds)
    else do
      let ds' ← addToTables ds t c l
      pure (d :: ds')

/-- The scan over the mapped lines (main.py:75-112): lines whose table or
column relationship resolves to `None` are skipped. -/
def exportLines (db : DB) : List Lines → List TableDraft → Except String (List TableDraft)
  | [], acc => pure acc
  | l :: rest, acc =>
    match lineTable db l, lineColumn db l with
    | some t, some c => do
      let acc' ← addToTables acc t c l
      exportLines db rest acc'
    | _, _ => exportLines db rest acc

/-- The final schema document (main.py:127-132); the wall-clock
`generated_at` timestamp is outside the embedding. -/
structure SchemaDoc where
  tables : List TableDraft
  total_tables : Nat
  total_mapped_columns : Nat
deriving DecidableEq, Repr

/-- `generate_mapped_schema` (main.py:60-132): scan the mapped lines
(both ids non-null), group by table name, then sort the table list by name
(`tables_list.sort(key=lambda x: x["name"])`, main.py:125). -/
def generate_mapped_schema (db : DB) : Except String SchemaDoc := do
  let mapped := db.lines.filter (fun l => l.table_id.isSome && l.column_id.isSome)
  let drafts ← exportLines db mapped []
  let sorted := sortLe (fun a b => optNameLe a.name b.name) drafts
  pure { tables := sorted
         total_tables := sorted.length
         total_mapped_columns := (sorted.map (fun d => d.columns.length)).sum }

/-! ### Shared small helpers and concrete stores used by the witnesses -/

/-- The store after the clear branch of `update_line` (main.py:281-288):
the found row has both ids nulled (comment applied first), and the owning
category's percentage is recomputed. -/
def clearedDb (db : DB) (line_id : Nat) (pd : LineCreate) (l : Lines) : DB :=
  update_category_percent_mapped
    { db with lines :=
        setLine db.lines line_id { applyComment pd l with table_id := none, column_id := none } }
    l.categoryid

/-- The response of the clear branch of `update_line` (main.py:296-305). -/
def clearedResp (pd : LineCreate) (l : Lines) : LineResponse :=
  { id := l.id, categoryid := l.categoryid, table_id := none, column_id := none,
    table_name := none, column_name := none,
    comment := (applyComment pd l).comment, action := "cleared_table_id" }

/-- A line row with the given mapping state and defaults elsewhere. -/
def mkLine (id categoryid : Nat) (field_name reason : Option String)
    (table_id column_id : Option Nat) : Lines :=
  { id := id, categoryid := categoryid, default := none, customer_settings := none,
    no_of_chars := none, field_name := field_name, reason := reason, name := "line",
    comment := none, sub_category_id := none, table_id := table_id, column_id := column_id }

/-- Store for the C1 witness: category 1 has four countable lines, two mapped. -/
def dbC1 : DB :=
  { categories := [{ id := 1, Name := "General", percent_mapped := 0, tab := none }]
    lines := [mkLine 1 1 (some "f1") none (some 1) (some 1),
              mkLine 2 1 (some "f2") none (some 1) (some 2),
              mkLine 3 1 (some "f3") none none none,
              mkLine 4 1 (some "f4") none (some 1) none]
    tables := []
    columns := [] }

/-- Store for the C2 witness: one mapped line, no ERP tables at all. -/
def dbC2 : DB :=
  { categories := [{ id := 1, Name := "General", percent_mapped := 100, tab := none }]
    lines := [mkLine 7 1 (some "field") none (some 3) (some 4)]
    tables := []
    columns := [] }

/-- Request body for the C2 witness: `table_id = 0` plus a comment. -/
def pdC2 : LineCreate := { table_id := some 0, column_id := none, comment := some "note" }

/-- The row of `dbC2` that the C2 witness patches. -/
def lC2 : Lines := mkLine 7 1 (some "field") none (some 3) (some 4)

/-- Store for the C3 (amended) witness: table 3 exists, column 99 belongs to it. -/
def dbC3 : DB :=
  { categories := [{ id := 1, Name := "General", percent_mapped := 0, tab := none }]
    lines := [mkLine 7 1 (some "field") none none none]
    tables := [{ id := 3, name := some "T3", description := none }]
    columns := [{ id := 99, name := "col99", comment := none, type := none, table_id := some 3 }] }

/-- Store for the C3 counterexample: column 99 exists and belongs to table 5,
but no ERP table with id 3 exists. -/
def dbC3x : DB :=
  { categories := [{ id := 1, Name := "General", percent_mapped := 0, tab := none }]
    lines := [mkLine 7 1 (some "field") none none none]
    tables := []
    columns := [{ id := 99, name := "col99", comment := none, type := none, table_id := some 5 }] }

/-- Store for the C4 witness: one literal "id" column and one "customer_id". -/
def dbC4 : DB :=
  { categories := []
    lines := []
    tables := [{ id := 1, name := some "T1", description := none },
               { id := 2, name := some "T2", description := none }]
    columns := [{ id := 1, name := "customer_id", comment := none, type := none, table_id := some 1 },
                { id := 2, name := "ID", comment := none, type := none, table_id := some 2 }] }

/-- Store exercising the column-search validation error: the matching column
"id" belongs to a table whose name is NULL. -/
def dbC4x : DB :=
  { categories := []
    lines := []
    tables := [{ id := 1, name := none, description := none }]
    columns := [{ id := 1, name := "id", comment := none, type := none, table_id := some 1 }] }

/-- Store for the C5 witness: table A matches two candidates, table B one. -/
def dbC5 : DB :=
  { categories := []
    lines := []
    tables := [{ id := 2, name := some "B", description := none },
               { id := 1, name := some "A", description := none }]
    columns := [{ id := 1, name := "Id", comment := none, type := none, table_id := some 1 },
                { id := 2, name := "name", comment := none, type := none, table_id := some 1 },
                { id := 3, name := "id", comment := none, type := none, table_id := some 2 },
                { id := 4, name := "other", comment := none, type := none, table_id := some 2 }] }

/-- Store for the C6 failing input: a single line mapped to an existing table
and column. -/
def dbC6 : DB :=
  { categories := []
    lines := [mkLine 1 1 none none (some 1) (some 1)]
    tables := [{ id := 1, name := some "T", description := none }]
    columns := [{ id := 1, name := "c1", comment := none, type := some "int", table_id := some 1 }] }

/-- Store for the C7 failing input: the mapped line carries a non-blank
reason, the situation in which the claim expects a description field. -/
def dbC7 : DB :=
  { categories := []
    lines := [mkLine 2 1 none (some "Customer identifier") (some 1) (some 2)]
    tables := [{ id := 1, name := some "T", description := some "desc" }]
    columns := [{ id := 2, name := "c2", comment := none, type := some "text", table_id := some 1 }] }

/-- Store for the C9 witness. -/
def dbC9 : DB :=
  { categories := [{ id := 1, Name := "General", percent_mapped := 0, tab := none }]
    lines := [mkLine 7 1 (some "field") none (some 3) (some 4)]
    tables := []
    columns := [] }

/-- Store for the C10 witness: two lines, a valid table and column. -/
def dbC10 : DB :=
  { categories := [{ id := 1, Name := "General", percent_mapped := 0, tab := none }]
    lines := [mkLine 7 1 (some "f") none none none,
              mkLine 8 1 (some "g") (some "why") none none]
    tables := [{ id := 3, name := some "T3", description := none }]
    columns := [{ id := 4, name := "c4", comment := none, type := none, table_id := some 3 }] }

/-- Request body for the C9 witness: clear the mapping and set a comment. -/
def pdC9 : LineCreate := { table_id := some 0, column_id := none, comment := some "hello" }

/-- The row of `dbC9` that the C9 witness patches. -/
def lC9 : Lines := mkLine 7 1 (some "field") none (some 3) (some 4)

/-- Request body for the C10 witness: map line 7 to table 3, column 4. -/
def pdC10 : LineCreate := { table_id := some 3, column_id := some 4, comment := none }

/-- The row of `dbC10` that the C10 witness patches. -/
def lC10 : Lines := mkLine 7 1 (some "f") none none none

/-- The row of `dbC10` after the C10 witness PATCH mutates it. -/
def lineC10' : Lines :=
  { applyComment pdC10 lC10 with table_id := some 3, column_id := some 4 }

/-- The store after the C10 witness PATCH succeeds. -/
def dbC10' : DB :=
  update_category_percent_mapped { dbC10 with lines := setLine dbC10.lines 7 lineC10' } 1

/-- The response of the C10 witness PATCH. -/
def respC10 : LineResponse :=
  lineResponseOf dbC10' lineC10' "updated"

/-- Inversion shape of every successful `update_line` call: the found row `l`
was replaced (first match only) by a row `line2` that agrees with `l` on every
column except `table_id`, `column_id` and the comment (which follows the
request), and the store then had the owning category's percentage recomputed. -/
def okFrameSpec (db : DB) (line_id : Nat) (pd : LineCreate) (db' : DB) (resp : LineResponse) : Prop :=
  ∃ l line2 : Lines,
    db.lines.find? (fun x => x.id == line_id) = some l ∧
    line2.id = l.id ∧ line2.categoryid = l.categoryid ∧ line2.default = l.default ∧
    line2.customer_settings = l.customer_settings ∧ line2.no_of_chars = l.no_of_chars ∧
    line2.field_name = l.field_name ∧ line2.reason = l.reason ∧ line2.name = l.name ∧
    line2.sub_category_id = l.sub_category_id ∧
    line2.comment = (applyComment pd l).comment ∧
    db' = update_category_percent_mapped
      { db with lines := setLine db.lines line_id line2 } l.categoryid ∧
    resp.comment = line2.comment

/-! ## Theorems

First the helper lemmas about the percent-mapped calculator, then one theorem
(plus witness / counterexample) per claim. -/

theorem update_category_lines_eq (db : DB) (category_id : Nat) :
    (update_category_percent_mapped db category_id).lines = db.lines := rfl

theorem ucpm_categories_eq (db : DB) (category_id : Nat) :
    (update_category_percent_mapped db category_id).categories =
      db.categories.map (fun c =>
        if c.id == category_id then
          { c with percent_mapped := percentFor db.lines category_id }
        else c) := rfl

theorem update_category_mem (db : DB) (category_id : Nat) :
    ∀ c ∈ (update_category_percent_mapped db category_id).categories,
      c.id = category_id → c.percent_mapped = percentFor db.lines category_id := by
  intro c hc hid
  rw [ucpm_categories_eq] at hc
  rcases List.mem_map.mp hc with ⟨c0, _, rfl⟩
  by_cases h : c0.id = category_id
  · simp [h]
  · simp [h] at hid

theorem totalLinesCount_eq_specTotal (ls : List Lines) (category_id : Nat) :
    totalLinesCount ls category_id = specTotal ls category_id := by
  unfold totalLinesCount specTotal
  rw [List.countP_eq_length_filter]
  congr 1
  have hp : (fun l : Lines => l.categoryid == category_id && fieldNamePresent l) =
      (fun l : Lines =>
        decide (l.categoryid = category_id ∧ l.field_name ≠ none ∧ l.field_name ≠ some "")) := by
    funext l
    cases hf : l.field_name with
    | none => simp [fieldNamePresent, hf]
    | some s =>
      by_cases hs : s = "" <;> by_cases hcid : l.categoryid = category_id <;>
        simp [fieldNamePresent, hf, hs, hcid]
  rw [hp]

theorem mappedLinesCount_eq_specMapped (ls : List Lines) (category_id : Nat) :
    mappedLinesCount ls category_id = specMapped ls category_id := by
  unfold mappedLinesCount specMapped
  rw [List.countP_eq_length_filter]
  congr 1
  have hp : (fun l : Lines => l.categoryid == category_id && fieldNamePresent l &&
        l.table_id.isSome && l.column_id.isSome) =
      (fun l : Lines =>
        decide (l.categoryid = category_id ∧ l.field_name ≠ none ∧ l.field_name ≠ some "" ∧
          l.table_id ≠ none ∧ l.column_id ≠ none)) := by
    funext l
    cases hf : l.field_name with
    | none => simp [fieldNamePresent, hf]
    | some s =>
      cases ht : l.table_id <;> cases hc : l.column_id <;>
        by_cases hs : s = "" <;> by_cases hcid : l.categoryid = category_id <;>
          simp [fieldNamePresent, hf, ht, hc, hs, hcid]
  rw [hp]

theorem percentFor_eq_specPercent (ls : List Lines) (category_id : Nat) :
    percentFor ls category_id = specPercent ls category_id := by
  unfold percentFor specPercent
  rw [totalLinesCount_eq_specTotal, mappedLinesCount_eq_specMapped]

/-- C1. The percent-mapped calculator writes, onto every category row with the
given id, exactly the percentage described by the claim: `0` when the category
has no line with non-null, non-empty `field_name`, and `(mapped / total) * 100`
otherwise, where `total` counts the category's lines with non-blank
`field_name` and `mapped` those of them with both `table_id` and `column_id`
non-null. -/
theorem percent_mapped_spec_formula (db : DB) (category_id : Nat) (c : Category)
    (hc : c ∈ (update_category_percent_mapped db category_id).categories)
    (hid : c.id = category_id) :
    c.percent_mapped = specPercent db.lines category_id := by
  rw [← percentFor_eq_specPercent]
  exact update_category_mem db category_id c hc hid

/-- C1 witness: in `dbC1`, category 1 has 4 countable lines of which 2 are
mapped; the updated row is in the store, its percentage satisfies the claim
formula, and it evaluates to 50. -/
theorem percent_mapped_spec_formula_witness :
    ({ id := 1, Name := "General", percent_mapped := percentFor dbC1.lines 1, tab := none } : Category) ∈
        (update_category_percent_mapped dbC1 1).categories ∧
      ({ id := 1, Name := "General", percent_mapped := percentFor dbC1.lines 1, tab := none } : Category).percent_mapped =
        specPercent dbC1.lines 1 ∧
      percentFor dbC1.lines 1 = 50 :=
  ⟨.head _,
   percent_mapped_spec_formula dbC1 1
     { id := 1, Name := "General", percent_mapped := percentFor dbC1.lines 1, tab := none }
     (.head _) rfl,
   by simp [percentFor, totalLinesCount, mappedLinesCount, dbC1, mkLine, fieldNamePresent]; norm_num⟩

theorem recalc_foldl_closed (L : List Category) (db : DB) :
    L.foldl (fun d c => update_category_percent_mapped d c.id) db =
      { db with categories := db.categories.map (fun c =>
          if L.any (fun x => x.id == c.id) then
            { c with percent_mapped := percentFor db.lines c.id }
          else c) } := by
  induction L generalizing db with
  | nil =>
    simp only [List.foldl_nil, List.any_nil, Bool.false_eq_true, if_false]
    obtain ⟨cats, lns, tbs, cols⟩ := db
    simp
  | cons x L ih =>
    rw [List.foldl_cons, ih]
    obtain ⟨cats, lns, tbs, cols⟩ := db
    simp only [update_category_percent_mapped]
    congr 1
    rw [List.map_map]
    apply List.map_congr_left
    intro a _
    by_cases hax : a.id = x.id
    · have hb : (a.id == x.id) = true := by simp [hax]
      have hb' : (x.id == a.id) = true := by simp [hax.symm]
      by_cases hL : L.any (fun y => y.id == a.id) = true
      · simp [Function.comp, hb, hb', hL, hax]
      · simp [Function.comp, hb, hb', hL, hax]
    · have hb : (a.id == x.id) = false := by simp [hax]
      have hb' : (x.id == a.id) = false := by
        simp only [beq_eq_false_iff_ne, ne_eq]
        exact fun h => hax h.symm
      simp [Function.comp, hb, hb']

theorem recalc_closed (db : DB) :
    recalculate_all_percent_mapped db =
      { db with categories := db.categories.map (fun c =>
          { c with percent_mapped := percentFor db.lines c.id }) } := by
  unfold recalculate_all_percent_mapped
  rw [recalc_foldl_closed]
  obtain ⟨cats, lns, tbs, cols⟩ := db
  congr 1
  apply List.map_congr_left
  intro a ha
  have h : (cats.any (fun x => x.id == a.id)) = true :=
    List.any_eq_true.mpr ⟨a, ha, by simp⟩
  simp [h]

/-- C8. The batch recalculation is idempotent: with no intervening change to
any `Lines` row, running `recalculate_all_percent_mapped` twice produces
exactly the store of the first run — in particular every category's
`percent_mapped` keeps its value from the first run. -/
theorem recalculate_all_percent_mapped_idempotent (db : DB) :
    recalculate_all_percent_mapped (recalculate_all_percent_mapped db) =
      recalculate_all_percent_mapped db := by
  rw [recalc_closed db, recalc_closed]
  obtain ⟨cats, lns, tbs, cols⟩ := db
  simp only []
  congr 1
  rw [List.map_map]
  apply List.map_congr_left
  intro a _
  simp [Function.comp]

theorem setLine_length (ls : List Lines) (line_id : Nat) (nl : Lines) :
    (setLine ls line_id nl).length = ls.length := by
  induction ls with
  | nil => rfl
  | cons a rest ih =>
    unfold setLine
    by_cases h : (a.id == line_id) = true
    · simp [h]
    · simp [h, ih]

theorem find?_id_eq {ls : List Lines} {line_id : Nat} {l : Lines}
    (h : ls.find? (fun x => x.id == line_id) = some l) : l.id = line_id := by
  simpa using List.find?_some h

theorem find?_setLine {ls : List Lines} {line_id : Nat} {l : Lines} (nl : Lines)
    (h : ls.find? (fun x => x.id == line_id) = some l) (hn : nl.id = line_id) :
    (setLine ls line_id nl).find? (fun x => x.id == line_id) = some nl := by
  induction ls with
  | nil => simp at h
  | cons a rest ih =>
    unfold setLine
    by_cases ha : (a.id == line_id) = true
    · rw [if_pos ha]
      exact List.find?_cons_of_pos _ (by simp [hn])
    · rw [if_neg ha]
      have hstep : (a :: rest).find? (fun x => x.id == line_id) =
          rest.find? (fun x => x.id == line_id) := List.find?_cons_of_neg rest ha
      have hstep' : (a :: setLine rest line_id nl).find? (fun x => x.id == line_id) =
          (setLine rest line_id nl).find? (fun x => x.id == line_id) :=
        List.find?_cons_of_neg _ ha
      rw [hstep] at h
      rw [hstep']
      exact ih h

theorem applyComment_id (pd : LineCreate) (l : Lines) : (applyComment pd l).id = l.id := by
  cases hc : pd.comment <;> simp [applyComment, hc]

theorem finishUpdate_eq (db : DB) (line_id : Nat) (line2 line0 : Lines) (act : String)
    (h0 : db.lines.find? (fun x => x.id == line_id) = some line0)
    (h2 : line2.id = line_id) :
    finishUpdate db line_id line2 line0 act =
      .ok (update_category_percent_mapped { db with lines := setLine db.lines line_id line2 } line0.categoryid)
        (lineResponseOf
          (update_category_percent_mapped { db with lines := setLine db.lines line_id line2 } line0.categoryid)
          line2 act) := by
  have hid : line0.id = line_id := find?_id_eq h0
  have hf : (update_category_percent_mapped { db with lines := setLine db.lines line_id line2 }
      line0.categoryid).lines.find? (fun x => x.id == line0.id) = some line2 := by
    rw [update_category_lines_eq]
    show (setLine db.lines line_id line2).find? (fun x => x.id == line0.id) = some line2
    rw [hid]
    exact find?_setLine line2 h0 h2
  unfold finishUpdate
  simp only [hf]

theorem update_line_clear_eq (db : DB) (line_id : Nat) (pd : LineCreate) (l : Lines)
    (h0 : db.lines.find? (fun x => x.id == line_id) = some l)
    (hclear : pd.table_id = none ∨ pd.table_id = some 0) :
    update_line db line_id pd = .ok (clearedDb db line_id pd l) (clearedResp pd l) := by
  have hid : l.id = line_id := find?_id_eq h0
  have hcond : (pd.table_id.isNone || pd.table_id == some 0) = true := by
    rcases hclear with h | h <;> simp [h]
  have h2 : ({ applyComment pd l with table_id := none, column_id := none } : Lines).id = line_id := by
    have := applyComment_id pd l
    simp [this, hid]
  unfold update_line
  rw [h0]
  simp only [hcond, if_true]
  rw [finishUpdate_eq db line_id _ l "cleared_table_id" h0 h2]
  unfold clearedDb clearedResp
  cases hc : pd.comment <;>
    simp [lineResponseOf, lineTable, lineColumn, applyComment, hc]

/-- C2. On any existing line, a PATCH whose `table_id` is absent or 0 takes
the clear branch: both `table_id` and `column_id` of the row become null, the
action is "cleared_table_id", the owning category's `percent_mapped` is
recomputed to the claim formula, and no ERPTable existence check happens —
the same success with the very same response is returned for every content of
the `erp_table` store. -/
theorem update_line_clears_mapping (db : DB) (line_id : Nat) (pd : LineCreate) (l : Lines)
    (h0 : db.lines.find? (fun x => x.id == line_id) = some l)
    (hclear : pd.table_id = none ∨ pd.table_id = some 0) :
    update_line db line_id pd = .ok (clearedDb db line_id pd l) (clearedResp pd l) ∧
    (clearedResp pd l).action = "cleared_table_id" ∧
    (clearedDb db line_id pd l).lines.find? (fun x => x.id == line_id) =
      some { applyComment pd l with table_id := none, column_id := none } ∧
    (∀ c ∈ (clearedDb db line_id pd l).categories, c.id = l.categoryid →
      c.percent_mapped = specPercent (clearedDb db line_id pd l).lines l.categoryid) ∧
    (∀ ts : List ERPTable,
      update_line { db with tables := ts } line_id pd =
        .ok (clearedDb { db with tables := ts } line_id pd l) (clearedResp pd l)) := by
  have hid : l.id = line_id := find?_id_eq h0
  have h2 : ({ applyComment pd l with table_id := none, column_id := none } : Lines).id = line_id := by
    have := applyComment_id pd l
    simp [this, hid]
  refine ⟨update_line_clear_eq db line_id pd l h0 hclear, rfl, ?_, ?_, ?_⟩
  · unfold clearedDb
    rw [update_category_lines_eq]
    exact find?_setLine _ h0 h2
  · intro c hc hcid
    unfold clearedDb at hc ⊢
    rw [update_category_lines_eq, ← percentFor_eq_specPercent]
    exact update_category_mem _ l.categoryid c hc hcid
  · intro ts
    exact update_line_clear_eq { db with tables := ts } line_id pd l h0 hclear

/-- C2 witness: patching line 7 of `dbC2` with `{table_id: 0, comment: "note"}`. -/
theorem update_line_clears_mapping_witness :
    update_line dbC2 7 pdC2 = .ok (clearedDb dbC2 7 pdC2 lC2) (clearedResp pdC2 lC2) ∧
    (clearedResp pdC2 lC2).action = "cleared_table_id" ∧
    (clearedDb dbC2 7 pdC2 lC2).lines.find? (fun x => x.id == 7) =
      some { applyComment pdC2 lC2 with table_id := none, column_id := none } ∧
    (∀ c ∈ (clearedDb dbC2 7 pdC2 lC2).categories, c.id = lC2.categoryid →
      c.percent_mapped = specPercent (clearedDb dbC2 7 pdC2 lC2).lines lC2.categoryid) ∧
    (∀ ts : List ERPTable,
      update_line { dbC2 with tables := ts } 7 pdC2 =
        .ok (clearedDb { dbC2 with tables := ts } 7 pdC2 lC2) (clearedResp pdC2 lC2)) :=
  update_line_clears_mapping dbC2 7 pdC2 lC2 rfl (Or.inr rfl)

/-- C3 counterexample: line 7 exists, column 99 exists and belongs to table 5
(not the supplied table 3), so the claim as stated demands a 400 "Column does
not belong to the specified table"; but no ERPTable with id 3 exists, and the
code answers 404 "ERP table not found" before ever looking at the column. -/
theorem update_line_column_validation_counterexample :
    update_line dbC3x 7 { table_id := some 3, column_id := some 99, comment := none } =
      .tableNotFound ∧
    (update_line dbC3x 7 { table_id := some 3, column_id := some 99, comment := none }).status = 404 ∧
    (update_line dbC3x 7 { table_id := some 3, column_id := some 99, comment := none }).status ≠ 400 :=
  ⟨rfl, rfl, by decide⟩

/-- C3 (amended). For a PATCH on an existing line whose nonzero `table_id`
references an existing ERPTable and whose `column_id` is nonzero: a missing
ERPColumn yields 404; an existing column whose `table_id` differs from the
supplied one yields 400 "Column does not belong to the specified table"; and
only a column that exists and belongs to the supplied table gets written to
the line. -/
theorem update_line_column_validation (db : DB) (line_id t c : Nat) (pd : LineCreate)
    (l : Lines) (tbl : ERPTable)
    (h0 : db.lines.find? (fun x => x.id == line_id) = some l)
    (hpt : pd.table_id = some t) (ht0 : t ≠ 0)
    (htb : db.tables.find? (fun x => x.id == t) = some tbl)
    (hpc : pd.column_id = some c) (hc0 : c ≠ 0) :
    (db.columns.find? (fun x => x.id == c) = none →
      update_line db line_id pd = .columnNotFound ∧ (update_line db line_id pd).status = 404) ∧
    (∀ col, db.columns.find? (fun x => x.id == c) = some col → col.table_id ≠ some t →
      update_line db line_id pd = .columnWrongTable ∧ (update_line db line_id pd).status = 400) ∧
    (∀ col, db.columns.find? (fun x => x.id == c) = some col → col.table_id = some t →
      ∃ db' resp, update_line db line_id pd = .ok db' resp ∧ resp.column_id = some c ∧
        db'.lines.find? (fun x => x.id == line_id) =
          some { applyComment pd l with table_id := some t, column_id := some c }) := by
  have hcond : (((some t : Option Nat)).isNone || (some t : Option Nat) == some 0) = false := by
    simp [ht0]
  have hcc : ((some c : Option Nat) == some 0) = false := by
    simp [hc0]
  have hstep : update_line db line_id pd =
      (match db.columns.find? (fun x => x.id == c) with
       | none => UpdateResult.columnNotFound
       | some col =>
         if col.table_id == some t then
           finishUpdate db line_id
             { applyComment pd l with table_id := some t, column_id := some c } l "updated"
         else UpdateResult.columnWrongTable) := by
    unfold update_line
    rw [h0, hpt, hpc]
    simp only [hcond, Bool.false_eq_true, if_false, hcc]
    rw [htb]
  refine ⟨?_, ?_, ?_⟩
  · intro hnone
    have h1 : update_line db line_id pd = UpdateResult.columnNotFound := by
      rw [hstep, hnone]
    exact ⟨h1, by rw [h1]; rfl⟩
  · intro col hcol hne
    have hbe : (col.table_id == some t) = false := by simp [hne]
    have h1 : update_line db line_id pd = UpdateResult.columnWrongTable := by
      rw [hstep, hcol]
      simp only [hbe, Bool.false_eq_true, if_false]
    exact ⟨h1, by rw [h1]; rfl⟩
  · intro col hcol heq
    have hbe : (col.table_id == some t) = true := by simp [heq]
    have h2 : ({ applyComment pd l with table_id := some t, column_id := some c } : Lines).id =
        line_id := by
      have := applyComment_id pd l
      simp [this, find?_id_eq h0]
    have h1 : update_line db line_id pd =
        finishUpdate db line_id
          { applyComment pd l with table_id := some t, column_id := some c } l "updated" := by
      rw [hstep, hcol]
      simp only [hbe, if_true]
    rw [finishUpdate_eq db line_id _ l "updated" h0 h2] at h1
    refine ⟨_, _, h1, rfl, ?_⟩
    rw [update_category_lines_eq]
    exact find?_setLine _ h0 h2

/-- C3 witness (for the amended statement), at `dbC3` with request
`{table_id: 3, column_id: 99}`: table 3 exists and column 99 belongs to it. -/
theorem update_line_column_validation_witness :
    (dbC3.columns.find? (fun x => x.id == 99) = none →
      update_line dbC3 7 { table_id := some 3, column_id := some 99, comment := none } =
          .columnNotFound ∧
        (update_line dbC3 7 { table_id := some 3, column_id := some 99, comment := none }).status = 404) ∧
    (∀ col, dbC3.columns.find? (fun x => x.id == 99) = some col → col.table_id ≠ some 3 →
      update_line dbC3 7 { table_id := some 3, column_id := some 99, comment := none } =
          .columnWrongTable ∧
        (update_line dbC3 7 { table_id := some 3, column_id := some 99, comment := none }).status = 400) ∧
    (∀ col, dbC3.columns.find? (fun x => x.id == 99) = some col → col.table_id = some 3 →
      ∃ db' resp,
        update_line dbC3 7 { table_id := some 3, column_id := some 99, comment := none } =
            .ok db' resp ∧
          resp.column_id = some 99 ∧
          db'.lines.find? (fun x => x.id == 7) =
            some { applyComment { table_id := some 3, column_id := some 99, comment := none }
              (mkLine 7 1 (some "field") none none none) with table_id := some 3, column_id := some 99 }) :=
  update_line_column_validation dbC3 7 3 99
    { table_id := some 3, column_id := some 99, comment := none }
    (mkLine 7 1 (some "field") none none none)
    { id := 3, name := some "T3", description := none }
    rfl rfl (by decide) rfl rfl (by decide)

theorem applyComment_frame (pd : LineCreate) (l : Lines) :
    (applyComment pd l).id = l.id ∧ (applyComment pd l).categoryid = l.categoryid ∧
    (applyComment pd l).default = l.default ∧
    (applyComment pd l).customer_settings = l.customer_settings ∧
    (applyComment pd l).no_of_chars = l.no_of_chars ∧
    (applyComment pd l).field_name = l.field_name ∧
    (applyComment pd l).reason = l.reason ∧ (applyComment pd l).name = l.name ∧
    (applyComment pd l).sub_category_id = l.sub_category_id := by
  cases hc : pd.comment <;> simp [applyComment, hc]

theorem finishUpdate_ok_frame (db : DB) (line_id : Nat) (pd : LineCreate) (l : Lines)
    (tid cid : Option Nat) (act : String) (db' : DB) (resp : LineResponse)
    (h0 : db.lines.find? (fun x => x.id == line_id) = some l)
    (h : finishUpdate db line_id { applyComment pd l with table_id := tid, column_id := cid }
        l act = .ok db' resp) :
    okFrameSpec db line_id pd db' resp := by
  have h2 : ({ applyComment pd l with table_id := tid, column_id := cid } : Lines).id =
      line_id := by
    have := applyComment_id pd l
    simp [this, find?_id_eq h0]
  rw [finishUpdate_eq db line_id _ l act h0 h2] at h
  injection h with hA hB
  obtain ⟨e1, e2, e3, e4, e5, e6, e7, e8, e9⟩ := applyComment_frame pd l
  exact ⟨l, { applyComment pd l with table_id := tid, column_id := cid }, h0,
    e1, e2, e3, e4, e5, e6, e7, e8, e9, rfl, hA.symm, by rw [← hB]; rfl⟩

theorem update_line_ok_inv (db : DB) (line_id : Nat) (pd : LineCreate)
    (db' : DB) (resp : LineResponse)
    (h : update_line db line_id pd = .ok db' resp) :
    okFrameSpec db line_id pd db' resp := by
  cases hf : db.lines.find? (fun x => x.id == line_id) with
  | none =>
    have hE : update_line db line_id pd = .lineNotFound := by
      unfold update_line
      rw [hf]
    rw [hE] at h
    simp at h
  | some l =>
    by_cases hcl : (pd.table_id.isNone || pd.table_id == some 0) = true
    · have hE : update_line db line_id pd =
          finishUpdate db line_id
            { applyComment pd l with table_id := none, column_id := none } l "cleared_table_id" := by
        unfold update_line
        rw [hf]
        simp only [hcl, if_true]
      exact finishUpdate_ok_frame db line_id pd l none none _ db' resp hf (hE.symm.trans h)
    · have hclF : (pd.table_id.isNone || pd.table_id == some 0) = false := by
        rwa [Bool.not_eq_true] at hcl
      cases hpt : pd.table_id with
      | none => exact absurd (by rw [hpt]; rfl) hcl
      | some t =>
        rw [hpt] at hclF
        cases htb : db.tables.find? (fun x => x.id == t) with
        | none =>
          have hE : update_line db line_id pd = .tableNotFound := by
            unfold update_line
            rw [hf, hpt]
            simp only [hclF, Bool.false_eq_true, if_false]
            rw [htb]
          rw [hE] at h
          simp at h
        | some tbl =>
          by_cases hc0 : (pd.column_id == some 0) = true
          · have hE : update_line db line_id pd =
                finishUpdate db line_id
                  { applyComment pd l with table_id := some t, column_id := none }
                  l "cleared_column_id" := by
              unfold update_line
              rw [hf, hpt]
              simp only [hclF, Bool.false_eq_true, if_false]
              rw [htb]
              simp only [hc0, if_true]
            exact finishUpdate_ok_frame db line_id pd l (some t) none _ db' resp hf
              (hE.symm.trans h)
          · have hc0F : (pd.column_id == some 0) = false := by
              rwa [Bool.not_eq_true] at hc0
            cases hpc : pd.column_id with
            | none =>
              have hE : update_line db line_id pd =
                  finishUpdate db line_id
                    { applyComment pd l with table_id := some t, column_id := none }
                    l "updated" := by
                unfold update_line
                rw [hf, hpt]
                simp only [hclF, Bool.false_eq_true, if_false]
                rw [htb]
                simp only [hpc]
                rfl
              exact finishUpdate_ok_frame db line_id pd l (some t) none _ db' resp hf
                (hE.symm.trans h)
            | some cc =>
              rw [hpc] at hc0F
              cases hcol : db.columns.find? (fun x => x.id == cc) with
              | none =>
                have hE : update_line db line_id pd = .columnNotFound := by
                  unfold update_line
                  rw [hf, hpt]
                  simp only [hclF, Bool.false_eq_true, if_false]
                  rw [htb]
                  simp only [hpc, hc0F, Bool.false_eq_true, if_false, hcol]
                rw [hE] at h
                simp at h
              | some col =>
                by_cases hbt : (col.table_id == some t) = true
                · have hE : update_line db line_id pd =
                      finishUpdate db line_id
                        { applyComment pd l with table_id := some t, column_id := some cc }
                        l "updated" := by
                    unfold update_line
                    rw [hf, hpt]
                    simp only [hclF, Bool.false_eq_true, if_false]
                    rw [htb]
                    simp only [hpc, hc0F, Bool.false_eq_true, if_false, hcol, hbt, if_true]
                  exact finishUpdate_ok_frame db line_id pd l (some t) (some cc) _ db' resp hf
                    (hE.symm.trans h)
                · have hbtF : (col.table_id == some t) = false := by
                    rwa [Bool.not_eq_true] at hbt
                  have hE : update_line db line_id pd = .columnWrongTable := by
                    unfold update_line
                    rw [hf, hpt]
                    simp only [hclF, Bool.false_eq_true, if_false]
                    rw [htb]
                    simp only [hpc, hc0F, Bool.false_eq_true, if_false, hcol, hbtF]
                  rw [hE] at h
                  simp at h

/-- C9. Whenever a PATCH request carries a comment and succeeds — whichever
table/column branch was taken, including the branch that clears `table_id`
and `column_id` — the stored line's comment and the response comment are the
supplied value. -/
theorem update_line_comment_applied (db : DB) (line_id : Nat) (pd : LineCreate) (s : String)
    (db' : DB) (resp : LineResponse)
    (hs : pd.comment = some s)
    (h : update_line db line_id pd = .ok db' resp) :
    resp.comment = some s ∧
    ∀ u, db'.lines.find? (fun x => x.id == line_id) = some u → u.comment = some s := by
  obtain ⟨l, line2, hf, hid2, _, _, _, _, _, _, _, _, hcm, hdb, hrc⟩ :=
    update_line_ok_inv db line_id pd db' resp h
  have hl2 : line2.comment = some s := by
    rw [hcm]
    simp [applyComment, hs]
  refine ⟨by rw [hrc, hl2], ?_⟩
  intro u hu
  have h2 : line2.id = line_id := by rw [hid2]; exact find?_id_eq hf
  rw [hdb, update_category_lines_eq] at hu
  have hfind := find?_setLine line2 hf h2
  rw [show ({ db with lines := setLine db.lines line_id line2 } : DB).lines =
      setLine db.lines line_id line2 from rfl] at hu
  rw [hfind] at hu
  injection hu with hu'
  rw [← hu']
  exact hl2

/-- C9 witness: clearing line 7 of `dbC9` while sending comment "hello". -/
theorem update_line_comment_applied_witness :
    (clearedResp pdC9 lC9).comment = some "hello" ∧
    ∀ u, (clearedDb dbC9 7 pdC9 lC9).lines.find? (fun x => x.id == 7) = some u →
      u.comment = some "hello" :=
  update_line_comment_applied dbC9 7 pdC9 "hello" (clearedDb dbC9 7 pdC9 lC9)
    (clearedResp pdC9 lC9) rfl
    (update_line_clear_eq dbC9 7 pdC9 lC9 rfl (Or.inr rfl))

theorem setLine_getElem?_ne (ls : List Lines) (line_id : Nat) (nl : Lines) :
    ∀ i, i ≠ ls.findIdx (fun x => x.id == line_id) →
      (setLine ls line_id nl)[i]? = ls[i]? := by
  induction ls with
  | nil => intro i _; rfl
  | cons a rest ih =>
    intro i hi
    rw [List.findIdx_cons] at hi
    by_cases ha : (a.id == line_id) = true
    · rw [ha] at hi
      simp only [cond_true] at hi
      unfold setLine
      rw [if_pos ha]
      cases i with
      | zero => simp at hi
      | succ j => simp
    · have haF : (a.id == line_id) = false := by rwa [Bool.not_eq_true] at ha
      rw [haF] at hi
      simp only [cond_false] at hi
      unfold setLine
      rw [if_neg ha]
      cases i with
      | zero => simp
      | succ j =>
        simp only [List.getElem?_cons_succ]
        exact ih j (fun hj => hi (by rw [hj]))

theorem getElem?_findIdx_of_find? {ls : List Lines} {p : Lines → Bool} {l : Lines}
    (h : ls.find? p = some l) : ls[ls.findIdx p]? = some l := by
  induction ls with
  | nil => simp at h
  | cons a rest ih =>
    rw [List.findIdx_cons]
    by_cases ha : p a = true
    · have hh : (a :: rest).find? p = some a := List.find?_cons_of_pos rest ha
      rw [hh] at h
      injection h with h'
      subst h'
      simp [ha]
    · have haF : p a = false := by rwa [Bool.not_eq_true] at ha
      have hh : (a :: rest).find? p = rest.find? p := List.find?_cons_of_neg rest ha
      rw [hh] at h
      simp only [haF, cond_false, List.getElem?_cons_succ]
      exact ih h

theorem setLine_getElem?_findIdx {ls : List Lines} {line_id : Nat} {l : Lines} (nl : Lines)
    (h : ls.find? (fun x => x.id == line_id) = some l) :
    (setLine ls line_id nl)[ls.findIdx (fun x => x.id == line_id)]? = some nl := by
  induction ls with
  | nil => simp at h
  | cons a rest ih =>
    rw [List.findIdx_cons]
    by_cases ha : (a.id == line_id) = true
    · unfold setLine
      rw [if_pos ha]
      simp [ha]
    · have haF : (a.id == line_id) = false := by rwa [Bool.not_eq_true] at ha
      have hh : (a :: rest).find? (fun x => x.id == line_id) =
          rest.find? (fun x => x.id == line_id) := List.find?_cons_of_neg rest ha
      rw [hh] at h
      unfold setLine
      rw [if_neg ha]
      simp only [haF, cond_false, List.getElem?_cons_succ]
      exact ih h

/-- C10. Every successful PATCH touches only the targeted row: the line list
keeps its length, every position other than the (first) matching row is
unchanged, the replaced row keeps `categoryid`, `default`,
`customer_settings`, `no_of_chars`, `field_name`, `reason`, `name`,
`sub_category_id` (and its id), and the ERP tables and columns stores are
untouched. -/
theorem update_line_frame_preserved (db : DB) (line_id : Nat) (pd : LineCreate)
    (db' : DB) (resp : LineResponse)
    (h : update_line db line_id pd = .ok db' resp) :
    db'.lines.length = db.lines.length ∧
    (∀ i, i ≠ db.lines.findIdx (fun x => x.id == line_id) → db'.lines[i]? = db.lines[i]?) ∧
    (∃ old nw : Lines,
      db.lines[db.lines.findIdx (fun x => x.id == line_id)]? = some old ∧
      db'.lines[db.lines.findIdx (fun x => x.id == line_id)]? = some nw ∧
      nw.id = old.id ∧ nw.categoryid = old.categoryid ∧ nw.default = old.default ∧
      nw.customer_settings = old.customer_settings ∧ nw.no_of_chars = old.no_of_chars ∧
      nw.field_name = old.field_name ∧ nw.reason = old.reason ∧ nw.name = old.name ∧
      nw.sub_category_id = old.sub_category_id) ∧
    db'.tables = db.tables ∧ db'.columns = db.columns := by
  obtain ⟨l, line2, hf, e1, e2, e3, e4, e5, e6, e7, e8, e9, hcm, hdb, hrc⟩ :=
    update_line_ok_inv db line_id pd db' resp h
  have hlines : db'.lines = setLine db.lines line_id line2 := by
    rw [hdb, update_category_lines_eq]
  refine ⟨?_, ?_, ?_, ?_, ?_⟩
  · rw [hlines]
    exact setLine_length db.lines line_id line2
  · intro i hi
    rw [hlines]
    exact setLine_getElem?_ne db.lines line_id line2 i hi
  · exact ⟨l, line2, getElem?_findIdx_of_find? hf,
      by rw [hlines]; exact setLine_getElem?_findIdx line2 hf,
      e1, e2, e3, e4, e5, e6, e7, e8, e9⟩
  · rw [hdb]; rfl
  · rw [hdb]; rfl

/-- C10 witness: mapping line 7 of `dbC10` to table 3, column 4; line 8 and
the ERP stores are untouched. -/
theorem update_line_frame_preserved_witness :
    dbC10'.lines.length = dbC10.lines.length ∧
    (∀ i, i ≠ dbC10.lines.findIdx (fun x => x.id == 7) → dbC10'.lines[i]? = dbC10.lines[i]?) ∧
    (∃ old nw : Lines,
      dbC10.lines[dbC10.lines.findIdx (fun x => x.id == 7)]? = some old ∧
      dbC10'.lines[dbC10.lines.findIdx (fun x => x.id == 7)]? = some nw ∧
      nw.id = old.id ∧ nw.categoryid = old.categoryid ∧ nw.default = old.default ∧
      nw.customer_settings = old.customer_settings ∧ nw.no_of_chars = old.no_of_chars ∧
      nw.field_name = old.field_name ∧ nw.reason = old.reason ∧ nw.name = old.name ∧
      nw.sub_category_id = old.sub_category_id) ∧
    dbC10'.tables = dbC10.tables ∧ dbC10'.columns = dbC10.columns :=
  update_line_frame_preserved dbC10 7 pdC10 dbC10' respC10 rfl

theorem except_error_bind {e : String} {α β : Type} (f : α → Except String β) :
    ((Except.error e : Except String α) >>= f) = Except.error e := rfl

theorem except_ok_bind {α β : Type} (a : α) (f : α → Except String β) :
    ((Except.ok a : Except String α) >>= f) = f a := rfl

theorem except_error_map {e : String} {α β : Type} (f : α → β) :
    (f <$> (Except.error e : Except String α)) = Except.error e := rfl

theorem except_ok_map {α β : Type} (a : α) (f : α → β) :
    (f <$> (Except.ok a : Except String α)) = Except.ok (f a) := rfl

theorem except_pure_def {α : Type} (a : α) :
    (pure a : Except String α) = Except.ok a := rfl

theorem scanPairs_mem_tables (db : DB) : ∀ p ∈ scanPairs db, p.2 ∈ db.tables := by
  intro p hp
  unfold scanPairs at hp
  rcases List.mem_flatMap.mp hp with ⟨c, _, hp2⟩
  rcases List.mem_map.mp hp2 with ⟨t, ht, rfl⟩
  exact (List.mem_filter.mp ht).1

theorem splitMatches_eq (st : String) (ps : List (ERPColumn × ERPTable))
    (h : ∀ p ∈ ps, p.2.name ≠ none) :
    splitMatches st ps = .ok
      ((ps.filter (fun p => pyLower p.1.name == st)).map
          (fun p => specSearchRow p "exact"),
       (ps.filter (fun p => pyLower p.1.name != st && hasSeg st (pyLower p.1.name))).map
          (fun p => specSearchRow p "partial")) := by
  induction ps with
  | nil => rfl
  | cons p rest ih =>
    obtain ⟨c, t⟩ := p
    have ht : t.name ≠ none := h (c, t) (List.mem_cons_self _ _)
    have hrest : ∀ q ∈ rest, q.2.name ≠ none := fun q hq => h q (List.mem_cons_of_mem _ hq)
    obtain ⟨n, hn⟩ : ∃ n, t.name = some n := Option.ne_none_iff_exists'.mp ht
    unfold splitMatches
    rw [ih hrest]
    by_cases he : (pyLower c.name == st) = true
    · have h2 : (pyLower c.name != st && hasSeg st (pyLower c.name)) = false := by
        simp [bne, he]
      simp [List.filter_cons, he, h2, mkSearchResult, hn, except_ok_bind, specSearchRow]
    · have heF : (pyLower c.name == st) = false := by rwa [Bool.not_eq_true] at he
      have hne : pyLower c.name ≠ st := by simpa using heF
      by_cases hp : hasSeg st (pyLower c.name) = true
      · have h2 : (pyLower c.name != st && hasSeg st (pyLower c.name)) = true := by
          simp [bne, heF, hp]
        simp [List.filter_cons, heF, h2, hp, hne, mkSearchResult, hn, except_ok_bind, specSearchRow]
      · have hpF : hasSeg st (pyLower c.name) = false := by rwa [Bool.not_eq_true] at hp
        have h2 : (pyLower c.name != st && hasSeg st (pyLower c.name)) = false := by
          simp [bne, hpF]
        simp [List.filter_cons, heF, h2, hpF, hne]

/-- C4. On any non-blank search term, over stores whose ERP table names are
present (a NULL name on a matching table makes the pydantic
`ColumnSearchResult` construction raise a `ValidationError`, answering 500
instead of a list — `search_columns_validation_error_eval` shows the model
raising exactly there), the column search succeeds and returns exactly:
first, in scan order, one "exact" result per joined (column, table) pair
whose lowercased column name equals the trimmed, lowercased term; then, in
scan order, one "partial" result per pair whose lowercased name differs from
the term but contains it as a substring. -/
theorem search_columns_spec (db : DB) (columnName : String)
    (hT : pyStrip columnName ≠ "")
    (hnn : ∀ t ∈ db.tables, t.name ≠ none) :
    search_columns db columnName = .ok
      (((scanPairs db).filter
          (fun p => pyLower p.1.name == pyLower (pyStrip columnName))).map
            (fun p => specSearchRow p "exact") ++
       ((scanPairs db).filter
          (fun p => pyLower p.1.name != pyLower (pyStrip columnName) &&
            hasSeg (pyLower (pyStrip columnName)) (pyLower p.1.name))).map
            (fun p => specSearchRow p "partial")) := by
  have hb : (pyStrip columnName == "") = false := by simp [hT]
  have hps : ∀ p ∈ scanPairs db, p.2.name ≠ none :=
    fun p hp => hnn p.2 (scanPairs_mem_tables db p hp)
  unfold search_columns
  simp only [hb, Bool.false_eq_true, if_false]
  rw [splitMatches_eq (pyLower (pyStrip columnName)) (scanPairs db) hps]
  rfl

/-- C4 witness: searching `dbC4` for " Id " finds the column literally named
"ID" as the exact match, before the "customer_id" partial match; all table
names of `dbC4` are present. -/
theorem search_columns_spec_witness :
    search_columns dbC4 " Id " = .ok
      (((scanPairs dbC4).filter
          (fun p => pyLower p.1.name == pyLower (pyStrip " Id "))).map
            (fun p => specSearchRow p "exact") ++
       ((scanPairs dbC4).filter
          (fun p => pyLower p.1.name != pyLower (pyStrip " Id ") &&
            hasSeg (pyLower (pyStrip " Id ")) (pyLower p.1.name))).map
            (fun p => specSearchRow p "partial")) :=
  search_columns_spec dbC4 " Id " (by decide) (by decide)

/-- Sanity check that the C4 witness store produces the expected concrete
response: the exact "ID" hit from table T2 precedes the "customer_id" partial
hit from table T1. -/
theorem search_columns_concrete_eval :
    search_columns dbC4 " Id " = .ok
      [{ column_name := "ID", table_name := "T2", column_id := 2, table_id := 2,
         match_type := "exact" },
       { column_name := "customer_id", table_name := "T1", column_id := 1, table_id := 1,
         match_type := "partial" }] := rfl

/-- The error path the non-nullable `table_name: str` field creates: in
`dbC4x` the column "id" matches but its table's name is NULL, so the row
construction raises and the request produces no result list (HTTP 500). -/
theorem search_columns_validation_error_eval :
    search_columns dbC4x "id" =
      .error "ValidationError: table_name must be a string" := rfl

theorem charListLe_total : ∀ as bs : List Char, charListLe as bs = true ∨ charListLe bs as = true
  | [], _ => Or.inl rfl
  | _ :: _, [] => Or.inr rfl
  | a :: as, b :: bs => by
    unfold charListLe
    by_cases h1 : a.toNat < b.toNat
    · left; simp [h1]
    · by_cases h2 : b.toNat < a.toNat
      · right; simp [h2]
      · rcases charListLe_total as bs with h | h
        · left; simp [h1, h2, h]
        · right; simp [h1, h2, h]

theorem charListLe_trans : ∀ as bs cs : List Char,
    charListLe as bs = true → charListLe bs cs = true → charListLe as cs = true
  | [], _, _, _, _ => rfl
  | _ :: _, [], _, h1, _ => by simp [charListLe] at h1
  | _ :: _, _ :: _, [], _, h2 => by simp [charListLe] at h2
  | a :: as, b :: bs, c :: cs, h1, h2 => by
    unfold charListLe at h1 h2 ⊢
    by_cases hab : a.toNat < b.toNat <;> by_cases hba : b.toNat < a.toNat <;>
      by_cases hbc : b.toNat < c.toNat <;> by_cases hcb : c.toNat < b.toNat <;>
        by_cases hac : a.toNat < c.toNat <;> by_cases hca : c.toNat < a.toNat <;>
          simp_all <;>
            first
            | omega
            | exact Or.inr (charListLe_trans as bs cs h1 h2)

theorem optNameLe_total : ∀ a b : Option String, optNameLe a b = true ∨ optNameLe b a = true
  | none, _ => Or.inl rfl
  | some _, none => Or.inr rfl
  | some s, some t => charListLe_total s.toList t.toList

theorem optNameLe_trans : ∀ a b c : Option String,
    optNameLe a b = true → optNameLe b c = true → optNameLe a c = true
  | none, _, _, _, _ => rfl
  | some _, none, _, h1, _ => by simp [optNameLe] at h1
  | some _, some _, none, _, h2 => by simp [optNameLe] at h2
  | some s, some t, some u, h1, h2 => charListLe_trans s.toList t.toList u.toList h1 h2

theorem tmLe_total (a b : TableMatchResult) : tmLe a b = true ∨ tmLe b a = true := by
  unfold tmLe
  by_cases h1 : b.match_count < a.match_count
  · left; simp [h1]
  · by_cases h2 : a.match_count < b.match_count
    · right; simp [h2]
    · have he : a.match_count = b.match_count := by omega
      rcases optNameLe_total a.table_name b.table_name with h | h
      · left; simp [he, h]
      · right; simp [he, h]

theorem tmLe_trans (a b c : TableMatchResult)
    (h1 : tmLe a b = true) (h2 : tmLe b c = true) : tmLe a c = true := by
  unfold tmLe at h1 h2 ⊢
  simp only [Bool.or_eq_true, decide_eq_true_eq, Bool.and_eq_true, beq_iff_eq] at h1 h2 ⊢
  rcases h1 with h1 | ⟨h1e, h1n⟩ <;> rcases h2 with h2 | ⟨h2e, h2n⟩
  · left; omega
  · left; omega
  · left; omega
  · right; exact ⟨h1e.trans h2e, optNameLe_trans _ _ _ h1n h2n⟩

theorem mem_insLe {α : Type} (le : α → α → Bool) (a x : α) :
    ∀ l : List α, x ∈ insLe le a l ↔ x = a ∨ x ∈ l := by
  intro l
  induction l with
  | nil => simp [insLe]
  | cons b l ih =>
    unfold insLe
    by_cases h : le b a = true
    · rw [if_pos h]
      simp only [List.mem_cons, ih]
      tauto
    · rw [if_neg h]
      simp only [List.mem_cons]

theorem mem_sortLe {α : Type} (le : α → α → Bool) (x : α) :
    ∀ l : List α, x ∈ sortLe le l ↔ x ∈ l := by
  intro l
  induction l with
  | nil => simp [sortLe]
  | cons a l ih =>
    unfold sortLe
    rw [mem_insLe]
    simp [ih]

theorem pairwise_insLe {α : Type} (le : α → α → Bool)
    (htr : ∀ a b c, le a b = true → le b c = true → le a c = true)
    (hto : ∀ a b, le a b = true ∨ le b a = true)
    (a : α) : ∀ l : List α, l.Pairwise (fun x y => le x y = true) →
      (insLe le a l).Pairwise (fun x y => le x y = true) := by
  intro l
  induction l with
  | nil => intro _; simp [insLe]
  | cons b l ih =>
    intro hp
    rw [List.pairwise_cons] at hp
    obtain ⟨hb, hl⟩ := hp
    unfold insLe
    by_cases h : le b a = true
    · rw [if_pos h]
      rw [List.pairwise_cons]
      refine ⟨?_, ih hl⟩
      intro x hx
      rcases (mem_insLe le a x l).mp hx with rfl | hx'
      · exact h
      · exact hb x hx'
    · rw [if_neg h]
      have hab : le a b = true := by
        rcases hto a b with h' | h'
        · exact h'
        · exact absurd h' h
      rw [List.pairwise_cons]
      refine ⟨?_, List.pairwise_cons.mpr ⟨hb, hl⟩⟩
      intro x hx
      rcases List.mem_cons.mp hx with rfl | hx'
      · exact hab
      · exact htr a b x hab (hb x hx')

theorem pairwise_sortLe {α : Type} (le : α → α → Bool)
    (htr : ∀ a b c, le a b = true → le b c = true → le a c = true)
    (hto : ∀ a b, le a b = true ∨ le b a = true) :
    ∀ l : List α, (sortLe le l).Pairwise (fun x y => le x y = true) := by
  intro l
  induction l with
  | nil => simp [sortLe]
  | cons a l ih =>
    unfold sortLe
    exact pairwise_insLe le htr hto a _ ih

/-- C5. On any candidate list with at least one non-blank name (and with the
ERP table names present — a `None` name would make the Python sort key
comparison raise instead of returning a list), the table-match finder
succeeds; every returned row belongs to a stored table, its `match_count` is
exactly the number of that table's columns whose lowercase name occurs in the
trimmed, lowercased candidate list, zero-match tables never appear, and the
returned list is pairwise ordered by descending `match_count` with ties
broken by ascending table name. -/
theorem find_table_matches_spec (db : DB) (column_names : List String)
    (hname : ∃ s ∈ column_names, pyStrip s ≠ "")
    (hnn : ∀ t ∈ db.tables, t.name ≠ none) :
    ∃ L, find_table_matches db column_names = .ok L ∧
      (∀ r ∈ L, 0 < r.match_count ∧ ∃ t ∈ db.tables, r.table_id = t.id ∧
        r.table_name = t.name ∧
        r.match_count = ((tableColumns db t).filter
          (fun c => (normalizedCandidates column_names).contains (pyLower c.name))).length) ∧
      L.Pairwise (fun a b => b.match_count < a.match_count ∨
        (a.match_count = b.match_count ∧ optNameLe a.table_name b.table_name = true)) := by
  obtain ⟨s0, hs0, hs0ne⟩ := hname
  have hne : column_names.isEmpty = false := by
    cases column_names with
    | nil => simp at hs0
    | cons _ _ => rfl
  have hmem : pyLower (pyStrip s0) ∈ normalizedCandidates column_names := by
    unfold normalizedCandidates
    exact List.mem_map_of_mem _ (List.mem_filter.mpr ⟨hs0, by simp [hs0ne]⟩)
  have hscne : (normalizedCandidates column_names).isEmpty = false := by
    cases hsc : normalizedCandidates column_names with
    | nil => rw [hsc] at hmem; simp at hmem
    | cons _ _ => rfl
  unfold find_table_matches
  simp only [hne, Bool.false_eq_true, if_false, hscne]
  refine ⟨_, rfl, ?_, ?_⟩
  · intro r hr
    have hr' : r ∈ db.tables.filterMap (tableMatchOf db (normalizedCandidates column_names)) :=
      (mem_sortLe tmLe r _).mp hr
    obtain ⟨t, ht, hmk⟩ := List.mem_filterMap.mp hr'
    simp only [tableMatchOf] at hmk
    split at hmk
    · injection hmk with hmk'
      subst hmk'
      rename_i hgt
      exact ⟨hgt, t, ht, rfl, rfl, rfl⟩
    · simp at hmk
  · have hp := pairwise_sortLe tmLe tmLe_trans tmLe_total
      (db.tables.filterMap (tableMatchOf db (normalizedCandidates column_names)))
    refine hp.imp ?_
    intro a b hab
    unfold tmLe at hab
    simp only [Bool.or_eq_true, decide_eq_true_eq, Bool.and_eq_true, beq_iff_eq] at hab
    exact hab

/-- C5 witness: `dbC5` with candidates `["id", " Name ", ""]` — the blank
entry is dropped, table A matches both normalized candidates, table B one. -/
theorem find_table_matches_spec_witness :
    ∃ L, find_table_matches dbC5 ["id", " Name ", ""] = .ok L ∧
      (∀ r ∈ L, 0 < r.match_count ∧ ∃ t ∈ dbC5.tables, r.table_id = t.id ∧
        r.table_name = t.name ∧
        r.match_count = ((tableColumns dbC5 t).filter
          (fun c => (normalizedCandidates ["id", " Name ", ""]).contains (pyLower c.name))).length) ∧
      L.Pairwise (fun a b => b.match_count < a.match_count ∨
        (a.match_count = b.match_count ∧ optNameLe a.table_name b.table_name = true)) :=
  find_table_matches_spec dbC5 ["id", " Name ", ""]
    ⟨"id", by decide, by decide⟩ (by decide)

/-- Sanity check that the C5 witness store produces the expected concrete
response: table A (2 matches) before table B (1 match). -/
theorem find_table_matches_concrete_eval :
    find_table_matches dbC5 ["id", " Name ", ""] = .ok
      [{ table_id := 1, table_name := some "A", match_count := 2,
         matched_columns := ["Id", "name"] },
       { table_id := 2, table_name := some "B", match_count := 1,
         matched_columns := ["id"] }] := rfl

/-- C6 (code bug). `dbC6` holds one line mapped to an existing table and
column, so the exporter reaches the column-entry construction (main.py:96-106)
— and fails: the constraint flags `not_null`, `primary_key`, `unique`,
`default` are read from an `ERPColumn` row that does not define them
(database.py:75-86), an `AttributeError` that `download_schema` turns into a
500. The export neither carries the constraint flags nor completes. -/
theorem generate_mapped_schema_attribute_error :
    generate_mapped_schema dbC6 =
      .error "AttributeError: 'ERPColumn' object has no attribute 'not_null'" := rfl

/-- Successful exports exist only for stores in which no mapped line resolves
to a real table and column: `addToTables` always attempts the failing
constraint reads before adding a first column, so an `.ok` result carries an
empty table list. -/
theorem addToTables_ok_empty (t : ERPTable) (c : ERPColumn) (l : Lines) :
    ∀ (acc : List TableDraft) (res : List TableDraft),
      addToTables acc t c l = .ok res → res = acc := by
  intro acc
  induction acc with
  | nil =>
    intro res h
    simp [addToTables, buildColumnEntry, ERPColumn.getAttr, except_error_bind,
      except_error_map, except_ok_bind, except_ok_map, except_pure_def] at h
  | cons d ds ih =>
    intro res h
    unfold addToTables at h
    by_cases hd : (d.name == t.name) = true
    · rw [if_pos hd] at h
      by_cases hc : (d.columns.any (fun e => e.name == c.name)) = true
      · rw [if_pos hc] at h
        rw [except_pure_def] at h
        injection h with h'
        exact h'.symm
      · rw [if_neg hc] at h
        simp [buildColumnEntry, ERPColumn.getAttr, except_error_bind,
          except_error_map, except_ok_bind, except_ok_map, except_pure_def] at h
    · rw [if_neg hd] at h
      cases hds : addToTables ds t c l with
      | error e =>
        rw [hds] at h
        simp [except_error_bind, except_error_map] at h
      | ok ds' =>
        rw [hds] at h
        simp only [except_ok_bind, except_ok_map, except_pure_def] at h
        injection h with h'
        rw [← h', ih ds' hds]

theorem exportLines_ok_empty (db : DB) :
    ∀ (ls : List Lines) (acc res : List TableDraft),
      exportLines db ls acc = .ok res → res = acc := by
  intro ls
  induction ls with
  | nil =>
    intro acc res h
    rw [show exportLines db [] acc = pure acc from rfl, except_pure_def] at h
    injection h with h'
    exact h'.symm
  | cons l rest ih =>
    intro acc res h
    unfold exportLines at h
    cases hT : lineTable db l with
    | none =>
      rw [hT] at h
      exact ih acc res h
    | some t =>
      cases hC : lineColumn db l with
      | none => rw [hT, hC] at h; exact ih acc res h
      | some c =>
        rw [hT, hC] at h
        dsimp only at h
        cases ha : addToTables acc t c l with
        | error e =>
          rw [ha] at h
          simp [except_error_bind, except_error_map] at h
        | ok acc' =>
          rw [ha] at h
          rw [except_ok_bind] at h
          have h1 := ih acc' res h
          rw [h1, addToTables_ok_empty t c l acc acc' ha]

/-- Any export that does return `.ok` has an empty table list: the failing
constraint reads run before any column entry can be added. -/
theorem export_ok_tables_empty :
    ∀ (db : DB) (doc : SchemaDoc), generate_mapped_schema db = .ok doc → doc.tables = [] := by
  intro db doc h
  simp only [generate_mapped_schema] at h
  cases he : exportLines db
      (db.lines.filter (fun l => l.table_id.isSome && l.column_id.isSome)) [] with
  | error e =>
    rw [he] at h
    simp [except_error_bind, except_error_map] at h
  | ok drafts =>
    rw [he] at h
    have hempty : drafts = [] := exportLines_ok_empty db _ [] drafts he
    subst hempty
    simp only [except_ok_bind, except_ok_map, except_pure_def] at h
    injection h with h'
    rw [← h']
    rfl

/-- C7 (code bug). `dbC7` holds a mapped line whose `reason` is the non-blank
"Customer identifier" — exactly the situation in which the claim expects the
emitted column entry to carry a `description` copied from that reason, inside
a table list sorted by name. The export instead fails with the
missing-attribute error of main.py:100-103 before the description logic
(main.py:108-110) is ever reached (see also `export_ok_tables_empty`: no
successful export ever contains a column entry). -/
theorem generate_mapped_schema_description_unreachable :
    generate_mapped_schema dbC7 =
      .error "AttributeError: 'ERPColumn' object has no attribute 'not_null'" := rfl
